import Mathlib

/-!
Verification of the fan-control core of the stm32f429 discovery projects
repository (src/modules/fan/fan.c together with the median filter module
it includes).

Modelling conventions:
* C `uint32_t` values are Lean `Nat` together with an explicit modulus
  `u32Mod = 2 ^ 32` applied exactly where the machine arithmetic wraps
  (the subtraction `current - previous` in the EXTI callback, and the
  product `2u * g_u32_time_diff` in the RPM conversion).
* The C `float` state and constants of the PI controller are modelled as
  exact rationals: `g_f_kp = 4 / 100`, `g_f_ki = 3 / 100`,
  `g_f_ta = 2 / 100`. The branch and clamping structure of the C code is
  reproduced verbatim.
* The globals written by the interrupt handler
  (`g_u32_ticks_last`, `g_u32_time_diff`, `g_u32_cpu_ticks_now`) form
  the record `TachoState`; `HAL_GetTick()` is passed in as an argument.
* The median module is missing from the source tree (only
  `median/median.h` is included and `median_get_median` is called from
  fan.c), so it is modelled from the specification, see `MedianState`.
-/

namespace Fan

/-- Modulus of unsigned 32-bit machine arithmetic. -/
def u32Mod : Nat := 2 ^ 32

/-- C unsigned 32-bit subtraction `a - b`, which wraps modulo `2 ^ 32`. -/
def u32sub (a b : Nat) : Nat := (a + u32Mod - b) % u32Mod

/-- The module state written by the tachometer interrupt of fan.c:
`g_u32_ticks_last`, `g_u32_time_diff` and `g_u32_cpu_ticks_now`. -/
structure TachoState where
  ticksLast : Nat
  timeDiff : Nat
  cpuTicksNow : Nat
deriving DecidableEq, Repr

/-- `HAL_GPIO_EXTI_Callback` of fan.c for the tacho pin: reads the
free-running TIM2 counter (`ticksNow`), stores the wrapped difference to
the previous reading as the pulse period, and records the HAL
millisecond tick for staleness detection. -/
def exti_callback (s : TachoState) (ticksNow halTick : Nat) : TachoState :=
  { ticksLast := ticksNow
    timeDiff := u32sub ticksNow s.ticksLast
    cpuTicksNow := halTick }

/-- The divisor of the RPM conversion in `fan_get_filtered_rpm`:
the C expression `2u * g_u32_time_diff` in `uint32_t` arithmetic. -/
def rpmDivisor (p : Nat) : Nat := (2 * p) % u32Mod

/-- The RPM conversion expression of `fan_get_filtered_rpm`:
`(60u * 1000000ul) / (2u * g_u32_time_diff)` in `uint32_t` arithmetic
(the numerator `60000000` fits in 32 bits; the divisor wraps). -/
def rpmOfPeriod (p : Nat) : Nat := (60 * 1000000) / rpmDivisor p

/-- Modelled from the spec: the median module (median/median.h, whose
implementation file is absent from the source tree). Per the spec, the
MedianWindow is a fixed-capacity circular buffer of the last N RPM
samples plus a write cursor; entries are overwritten cyclically once the
buffer is full, and before the buffer first fills the median is taken
over however many samples exist. `buf` has fixed length `N`, `cursor` is
the write index and `count` how many samples have been stored (capped at
`N`). -/
structure MedianState (N : Nat) where
  buf : List Nat
  cursor : Nat
  count : Nat
deriving DecidableEq, Repr

/-- Modelled from the spec: the freshly initialized median window, with
no samples stored yet. -/
def MedianState.empty (N : Nat) : MedianState N :=
  { buf := List.replicate N 0, cursor := 0, count := 0 }

/-- Modelled from the spec: `insert(sample)` writes the sample at the
cursor (overwriting the oldest entry once the buffer is full), advances
the cursor modulo the capacity, and bumps the sample count up to the
capacity. -/
def MedianState.insert {N : Nat} (s : MedianState N) (v : Nat) : MedianState N :=
  { buf := s.buf.set s.cursor v
    cursor := (s.cursor + 1) % N
    count := min (s.count + 1) N }

/-- The currently valid window contents: the stored samples (all `N`
slots once full, the first `count` slots before the first fill). -/
def MedianState.contents {N : Nat} (s : MedianState N) : List Nat :=
  s.buf.take s.count

/-- The middle element of a list of values sorted by value (for an odd
length the unique middle element; for an even length the lower middle,
index `(length - 1) / 2`); `0` on the empty list. -/
def sortedMid (l : List Nat) : Nat :=
  (l.insertionSort (fun a b => a ≤ b)).getD ((l.length - 1) / 2) 0

/-- Modelled from the spec: `median()` returns the middle value of the
current buffer contents sorted by value. -/
def MedianState.median {N : Nat} (s : MedianState N) : Nat :=
  sortedMid s.contents

/-- Modelled from the spec: `median_get_median(sample)`, the single
entry point of the missing median module that fan.c calls with the
freshly converted RPM sample. Per the data flow of the spec
(SpeedConverter feeds MedianFilter on each periodic read) it inserts the
sample into the window and returns the resulting median. -/
def median_get_median {N : Nat} (s : MedianState N) (v : Nat) :
    Nat × MedianState N :=
  let t := s.insert v
  (t.median, t)

/-- Inserting a whole list of samples in order, oldest first. -/
def insertAll {N : Nat} (s : MedianState N) (l : List Nat) : MedianState N :=
  l.foldl MedianState.insert s

/-- `fan_get_filtered_rpm` of fan.c as a function of the tacho state,
the current HAL millisecond tick, and the median filter state. It
returns the result together with the median state after the call:
if more than 1000 ms have passed since the last pulse, or no period has
ever been captured, it returns 0 without touching the filter; otherwise
it converts the period to RPM and feeds it to `median_get_median`. -/
def fan_get_filtered_rpm {N : Nat} (ts : TachoState) (halTick : Nat)
    (m : MedianState N) : Nat × MedianState N :=
  if u32sub halTick ts.cpuTicksNow > 1000 then (0, m)
  else if ts.timeDiff = 0 then (0, m)
  else median_get_median m (rpmOfPeriod ts.timeDiff)

/-- Controller sampling time `g_f_ta = 0.02f`, as an exact rational. -/
def g_f_ta : ℚ := 2 / 100

/-- Proportional gain `g_f_kp = 0.04f`, as an exact rational. -/
def g_f_kp : ℚ := 4 / 100

/-- Integral gain `g_f_ki = 0.03f`, as an exact rational. -/
def g_f_ki : ℚ := 3 / 100

/-- The unclamped PI output `f_output` computed in
`fan_update_pi_controller`: `g_f_kp * f_error + g_f_ki * f_esum` with
`f_error = target - filtered`. -/
def rawOutput (target filtered : Nat) (esum : ℚ) : ℚ :=
  g_f_kp * ((target : ℚ) - (filtered : ℚ)) + g_f_ki * esum

/-- The branch structure of `fan_update_pi_controller` on the float
state: given the target RPM, the filtered RPM and the accumulated
integral error `f_esum`, returns the output percentage written to the
actuator and the new `f_esum`. The integral only advances in the final
else branch, exactly as in the C code. -/
def piStep (target filtered : Nat) (esum : ℚ) : ℚ × ℚ :=
  let raw : ℚ := rawOutput target filtered esum
  if raw > 100 then (100, esum)
  else if raw < 0 then (0, esum)
  else (raw, esum + ((target : ℚ) - (filtered : ℚ)) * g_f_ta)

/-- TIM9 Period register value from `fan_timer_init`: `400u - 1u`. -/
def timerPeriodReg : Nat := 400 - 1

/-- The compare register value written by `__HAL_TIM_SET_COMPARE` in
`fan_update_pi_controller`: `(Period + 1) * f_output / 100`. -/
def compareValue (output : ℚ) : ℚ :=
  ((timerPeriodReg : Nat) + 1 : ℚ) * output / 100

/-- One cycle of `fan_update_pi_controller`: computes the PI step and
returns the compare register value written to the PWM together with the
new integral state. -/
def fan_update_pi_controller (target filtered : Nat) (esum : ℚ) : ℚ × ℚ :=
  let r := piStep target filtered esum
  (compareValue r.1, r.2)

/-! ## Helper lemmas -/

/-- Overwriting index `n` of a list and taking `n + 1` elements appends
the new value to the first `n` elements. -/
theorem take_succ_set (v : Nat) :
    ∀ (b : List Nat) (n : Nat), n < b.length →
      (b.set n v).take (n + 1) = b.take n ++ [v]
  | [], n, h => absurd h (by simp)
  | _ :: _, 0, _ => by simp
  | x :: xs, n + 1, h => by
      simp only [List.set, List.take, List.cons_append]
      rw [take_succ_set v xs n (by simpa using h)]

/-- Inserting a list of samples into a median window with enough free
capacity appends them, in order, to the valid window contents. -/
theorem insertAll_contents {N : Nat} :
    ∀ (l : List Nat) (s : MedianState N),
      s.buf.length = N → s.cursor = s.count % N → s.count + l.length ≤ N →
      (insertAll s l).contents = s.contents ++ l
  | [], s, _, _, _ => by simp [insertAll, MedianState.contents]
  | v :: rest, s, hbuf, hcur, hlen => by
      have hcount : s.count < N := by
        simp only [List.length_cons] at hlen; omega
      have hceq : s.cursor = s.count := by
        rw [hcur, Nat.mod_eq_of_lt hcount]
      have hmin : min (s.count + 1) N = s.count + 1 := by omega
      have step : insertAll s (v :: rest) = insertAll (s.insert v) rest := rfl
      rw [step, insertAll_contents rest (s.insert v)
        (by simp [MedianState.insert, hbuf])
        (by simp [MedianState.insert, hceq, hmin])
        (by simp only [MedianState.insert, hmin, List.length_cons] at hlen ⊢; omega)]
      have hc : (s.insert v).contents = s.contents ++ [v] := by
        simp only [MedianState.insert, MedianState.contents, hmin, hceq]
        exact take_succ_set v s.buf s.count (by omega)
      rw [hc, List.append_assoc]
      rfl

/-- The output written by the PI step is the raw output clamped to the
interval from 0 to 100. -/
theorem piStep_fst_clamp (t f : Nat) (e : ℚ) :
    (piStep t f e).1 = max 0 (min (rawOutput t f e) 100) := by
  unfold piStep
  by_cases h1 : rawOutput t f e > 100
  · rw [if_pos h1, min_eq_right h1.le]
    norm_num
  · rw [if_neg h1]
    by_cases h2 : rawOutput t f e < 0
    · rw [if_pos h2, min_eq_left (by linarith), max_eq_left h2.le]
    · rw [if_neg h2, min_eq_left (by linarith), max_eq_right (by linarith)]

/-- The two branches of the PI step, phrased over the inclusive
interval: inside the interval the raw output passes through and the
integral advances, outside it the output is clamped and the integral is
frozen. -/
theorem piStep_cases (t f : Nat) (e : ℚ) :
    piStep t f e =
      if 0 ≤ rawOutput t f e ∧ rawOutput t f e ≤ 100
      then (rawOutput t f e, e + ((t : ℚ) - (f : ℚ)) * g_f_ta)
      else (max 0 (min (rawOutput t f e) 100), e) := by
  unfold piStep
  by_cases h1 : rawOutput t f e > 100
  · rw [if_pos h1, if_neg (by push_neg; intro _; linarith), min_eq_right h1.le]
    norm_num
  · rw [if_neg h1]
    by_cases h2 : rawOutput t f e < 0
    · rw [if_pos h2, if_neg (by push_neg; intro h; linarith),
        min_eq_left (by linarith), max_eq_left h2.le]
    · rw [if_neg h2, if_pos ⟨by linarith, by linarith⟩]

/-- The two early-return guards of `fan_get_filtered_rpm` merged into a
single condition: a stale or never-captured period leaves the filter
untouched and yields 0, otherwise exactly one sample is inserted. -/
theorem get_filtered_rpm_eq {N : Nat} (ts : TachoState) (halTick : Nat)
    (m : MedianState N) :
    fan_get_filtered_rpm ts halTick m =
      if u32sub halTick ts.cpuTicksNow > 1000 ∨ ts.timeDiff = 0 then (0, m)
      else ((m.insert (rpmOfPeriod ts.timeDiff)).median,
            m.insert (rpmOfPeriod ts.timeDiff)) := by
  unfold fan_get_filtered_rpm median_get_median
  by_cases h1 : u32sub halTick ts.cpuTicksNow > 1000
  · simp [h1]
  · by_cases h2 : ts.timeDiff = 0 <;> simp [h1, h2]

/-! ## Claim theorems -/

/-- C1: Each cycle of `fan_update_pi_controller` computes
`error = target - filtered` and `raw = Kp * error + Ki * esum` with
Kp = 0.04, Ki = 0.03, Ta = 0.02; when `raw` lies in the interval from 0
to 100 the output equals `raw` and the integral advances by
`error * Ta`, otherwise the output is clamped to 0 or 100 and the
integral is left unchanged that cycle. In particular at target 5000,
filtered 0 and integral 0 the raw output is 200, the output is 100 and
the integral does not advance. -/
theorem pi_controller_step_spec (target filtered : Nat) (esum : ℚ) :
    (piStep target filtered esum =
      if 0 ≤ rawOutput target filtered esum ∧ rawOutput target filtered esum ≤ 100
      then (rawOutput target filtered esum,
            esum + ((target : ℚ) - (filtered : ℚ)) * g_f_ta)
      else (max 0 (min (rawOutput target filtered esum) 100), esum))
    ∧ rawOutput 5000 0 0 = 200
    ∧ piStep 5000 0 0 = (100, 0) := by
  refine ⟨piStep_cases target filtered esum, ?_, ?_⟩
  · norm_num [rawOutput, g_f_kp, g_f_ki]
  · norm_num [piStep, rawOutput, g_f_kp, g_f_ki]

/-- C2: For every controller state and invocation the output percentage
handed to the PWM actuator lies in the interval from 0 to 100, and it is
exactly the raw PI output clamped to at most 100 and at least 0. -/
theorem pi_output_within_range (target filtered : Nat) (esum : ℚ) :
    (0 ≤ (piStep target filtered esum).1
      ∧ (piStep target filtered esum).1 ≤ 100)
    ∧ (piStep target filtered esum).1
        = max 0 (min (rawOutput target filtered esum) 100) := by
  refine ⟨?_, piStep_fst_clamp target filtered esum⟩
  rw [piStep_fst_clamp]
  exact ⟨le_max_left 0 _, max_le (by norm_num) (min_le_right _ _)⟩

/-- C3 counterexample: the conversion is performed in 32-bit machine
arithmetic, so for the captured period `2 ^ 31 + 1` the divisor
`2 * p` wraps to 2 and the code computes 30000000 RPM, while the
claimed formula `60 * 1000000 / (2 * p)` gives 0. -/
theorem rpm_formula_overflow_counterexample :
    rpmOfPeriod (2 ^ 31 + 1) = 30000000
    ∧ 60 * 1000000 / (2 * (2 ^ 31 + 1)) = 0
    ∧ rpmOfPeriod (2 ^ 31 + 1) ≠ 60 * 1000000 / (2 * (2 ^ 31 + 1)) := by
  refine ⟨by decide, by decide, by decide⟩

/-- C3 amended: for every captured period p with 0 < p < 2 ^ 31 (so
that the 32-bit product 2 * p does not wrap) the instantaneous speed is
computed as RPM = 60 * 1000000 / (2 * p); in particular a period of
6000 ticks yields exactly 5000 RPM. -/
theorem rpm_formula_below_overflow (p : Nat) (hpos : 0 < p)
    (hlt : p < 2 ^ 31) :
    rpmOfPeriod p = 60 * 1000000 / (2 * p) ∧ rpmOfPeriod 6000 = 5000 := by
  constructor
  · unfold rpmOfPeriod rpmDivisor u32Mod
    rw [Nat.mod_eq_of_lt (by omega)]
  · decide

/-- C3 witness: the amended formula evaluated at the period 6000. -/
theorem rpm_formula_below_overflow_witness :
    rpmOfPeriod 6000 = 60 * 1000000 / (2 * 6000)
    ∧ rpmOfPeriod 6000 = 5000 :=
  rpm_formula_below_overflow 6000 (by decide) (by decide)

/-- C4 counterexample: with stored period `2 ^ 31` and a call within
the staleness window both guards pass, so the division is reached, yet
the 32-bit divisor `2u * g_u32_time_diff` wraps to 0: the division by
the period is reached with a zero machine divisor. -/
theorem division_divisor_zero_counterexample :
    ¬ (u32sub 0 (TachoState.mk 0 (2 ^ 31) 0).cpuTicksNow > 1000)
    ∧ (TachoState.mk 0 (2 ^ 31) 0).timeDiff ≠ 0
    ∧ rpmDivisor (TachoState.mk 0 (2 ^ 31) 0).timeDiff = 0 := by
  refine ⟨by decide, by decide, by decide⟩

/-- C4 amended: `fan_get_filtered_rpm` returns 0 and leaves the filter
untouched whenever more than 1000 ms have elapsed since the last pulse
or no period has ever been captured, so the division is only reached
with a nonzero stored period; the 32-bit machine divisor
2 * p mod 2 ^ 32, however, can still be zero (at p = 2 ^ 31). -/
theorem stale_or_zero_returns_zero {N : Nat} (ts : TachoState)
    (halTick : Nat) (m : MedianState N)
    (h : u32sub halTick ts.cpuTicksNow > 1000 ∨ ts.timeDiff = 0) :
    (fan_get_filtered_rpm ts halTick m).1 = 0
    ∧ (fan_get_filtered_rpm ts halTick m).2 = m := by
  rw [get_filtered_rpm_eq, if_pos h]
  exact ⟨rfl, rfl⟩

/-- C4 witness: a concrete stale call (last pulse at millisecond 0,
current tick 2000) returns 0 and preserves the filter. -/
theorem stale_or_zero_returns_zero_witness :
    (fan_get_filtered_rpm (TachoState.mk 0 5 0) 2000
        (MedianState.empty 5)).1 = 0
    ∧ (fan_get_filtered_rpm (TachoState.mk 0 5 0) 2000
        (MedianState.empty 5)).2 = MedianState.empty 5 :=
  stale_or_zero_returns_zero (TachoState.mk 0 5 0) 2000
    (MedianState.empty 5) (Or.inl (by decide))

/-- C5: for any window capacity N and any sequence of at most N
inserted values (N covering the full window, fewer covering a partial
fill), the median returned by the filter after those inserts equals the
middle element of the inserted values sorted by value. -/
theorem median_after_inserts_true_median (N : Nat) (l : List Nat)
    (h : l.length ≤ N) :
    (insertAll (MedianState.empty N) l).median = sortedMid l := by
  have hc := insertAll_contents l (MedianState.empty N)
    (by simp [MedianState.empty]) (by simp [MedianState.empty])
    (by simpa [MedianState.empty] using h)
  unfold MedianState.median
  rw [hc]
  simp [MedianState.empty, MedianState.contents]

/-- C5 witness: inserting 5, 1, 3 into an empty window of capacity 5
yields the true median 3. -/
theorem median_after_inserts_true_median_witness :
    (insertAll (MedianState.empty 5) [5, 1, 3]).median = sortedMid [5, 1, 3]
    ∧ sortedMid [5, 1, 3] = 3 :=
  ⟨median_after_inserts_true_median 5 [5, 1, 3] (by decide), by decide⟩

/-- C6 counterexample: `fan_get_filtered_rpm` is not a state-preserving
read. With period 6000000 (sample value 5) and window contents
2, 8, 0, 10, 10 at cursor 0, the first call inserts 5 over the 2 and
returns 8, the second call inserts 5 over the 8 and returns 5: the two
consecutive calls with unchanged period and staleness state return
different values and change the filter state. -/
theorem filtered_rpm_read_counterexample :
    (fan_get_filtered_rpm (TachoState.mk 0 6000000 0) 0
        (MedianState.mk (N := 5) [2, 8, 0, 10, 10] 0 5)).1 = 8
    ∧ (fan_get_filtered_rpm (TachoState.mk 0 6000000 0) 0
        ((fan_get_filtered_rpm (TachoState.mk 0 6000000 0) 0
          (MedianState.mk (N := 5) [2, 8, 0, 10, 10] 0 5)).2)).1 = 5
    ∧ (fan_get_filtered_rpm (TachoState.mk 0 6000000 0) 0
        (MedianState.mk (N := 5) [2, 8, 0, 10, 10] 0 5)).2
        ≠ MedianState.mk (N := 5) [2, 8, 0, 10, 10] 0 5 := by
  refine ⟨by decide, by decide, by decide⟩

/-- C6 amended: reading the filtered RPM is idempotent and
state-preserving only in the degenerate case: when the staleness
condition holds or no period was ever captured, a repeated call returns
the same result 0 and the filter state is unchanged. A non-stale call
with a nonzero period inserts the current sample, so consecutive calls
may change the filter and return different values. -/
theorem filtered_rpm_idempotent_when_stale {N : Nat} (ts : TachoState)
    (halTick : Nat) (m : MedianState N)
    (h : u32sub halTick ts.cpuTicksNow > 1000 ∨ ts.timeDiff = 0) :
    fan_get_filtered_rpm ts halTick
        ((fan_get_filtered_rpm ts halTick m).2)
      = fan_get_filtered_rpm ts halTick m
    ∧ (fan_get_filtered_rpm ts halTick m).2 = m
    ∧ (fan_get_filtered_rpm ts halTick m).1 = 0 := by
  have he := get_filtered_rpm_eq ts halTick m
  rw [if_pos h] at he
  rw [he]
  exact ⟨by rw [get_filtered_rpm_eq, if_pos h], rfl, rfl⟩

/-- C6 witness: a concrete stale call, repeated, returns 0 twice and
preserves the empty filter. -/
theorem filtered_rpm_idempotent_when_stale_witness :
    fan_get_filtered_rpm (TachoState.mk 0 7 0) 5000
        ((fan_get_filtered_rpm (TachoState.mk 0 7 0) 5000
          (MedianState.empty 5)).2)
      = fan_get_filtered_rpm (TachoState.mk 0 7 0) 5000 (MedianState.empty 5)
    ∧ (fan_get_filtered_rpm (TachoState.mk 0 7 0) 5000
        (MedianState.empty 5)).2 = MedianState.empty 5
    ∧ (fan_get_filtered_rpm (TachoState.mk 0 7 0) 5000
        (MedianState.empty 5)).1 = 0 :=
  filtered_rpm_idempotent_when_stale (TachoState.mk 0 7 0) 5000
    (MedianState.empty 5) (Or.inl (by decide))

/-- C7 counterexample: exact doubling fails under integer division:
for the even period 512, the RPM computed for period 256 is 117187
while twice the RPM computed for period 512 is 117186. -/
theorem rpm_halving_counterexample :
    rpmOfPeriod (512 / 2) = 117187
    ∧ 2 * rpmOfPeriod 512 = 117186
    ∧ rpmOfPeriod (512 / 2) ≠ 2 * rpmOfPeriod 512 := by
  refine ⟨by decide, by decide, by decide⟩

/-- C7 amended: for every even period p with 0 < p < 2 ^ 31, halving
the period doubles the computed RPM up to the truncation of integer
division: the RPM for p / 2 lies between twice the RPM for p and twice
the RPM for p plus one; and a stored period of 0 makes
`fan_get_filtered_rpm` return 0 through its guard rather than reach the
division. -/
theorem rpm_halving_within_one (p : Nat) (hpos : 0 < p)
    (heven : p % 2 = 0) (hlt : p < 2 ^ 31) :
    (2 * rpmOfPeriod p ≤ rpmOfPeriod (p / 2)
     ∧ rpmOfPeriod (p / 2) ≤ 2 * rpmOfPeriod p + 1)
    ∧ ∀ (N : Nat) (ts : TachoState) (halTick : Nat) (m : MedianState N),
        ts.timeDiff = 0 → (fan_get_filtered_rpm ts halTick m).1 = 0 := by
  have hmod1 : rpmOfPeriod p = 30000000 / p := by
    unfold rpmOfPeriod rpmDivisor u32Mod
    rw [Nat.mod_eq_of_lt (by omega), ← Nat.div_div_eq_div_mul]
  have h2p : 2 * (p / 2) = p := by omega
  have hmod2 : rpmOfPeriod (p / 2) = 60000000 / p := by
    unfold rpmOfPeriod rpmDivisor u32Mod
    rw [h2p, Nat.mod_eq_of_lt (by omega)]
  refine ⟨?_, ?_⟩
  · rw [hmod1, hmod2]
    have hqr := Nat.div_add_mod 30000000 p
    have hrlt : 30000000 % p < p := Nat.mod_lt _ hpos
    constructor
    · rw [Nat.le_div_iff_mul_le hpos]
      have h2 : 2 * (30000000 / p) * p = 2 * (p * (30000000 / p)) := by ring
      rw [h2]
      generalize p * (30000000 / p) = A at *
      omega
    · rw [← Nat.lt_succ_iff, Nat.div_lt_iff_lt_mul hpos]
      have h2 : (2 * (30000000 / p) + 1 + 1) * p
          = 2 * (p * (30000000 / p)) + 2 * p := by ring
      rw [h2]
      generalize p * (30000000 / p) = A at *
      omega
  · intro N ts halTick m h
    rw [get_filtered_rpm_eq, if_pos (Or.inr h)]

/-- C7 witness: the amended bounds at the even period 6000, and the
zero-period guard at a concrete state. -/
theorem rpm_halving_within_one_witness :
    (2 * rpmOfPeriod 6000 ≤ rpmOfPeriod (6000 / 2)
     ∧ rpmOfPeriod (6000 / 2) ≤ 2 * rpmOfPeriod 6000 + 1)
    ∧ (fan_get_filtered_rpm (TachoState.mk 0 0 0) 0
        (MedianState.empty 5)).1 = 0 :=
  ⟨(rpm_halving_within_one 6000 (by decide) (by decide) (by decide)).1,
   (rpm_halving_within_one 6000 (by decide) (by decide) (by decide)).2
     5 (TachoState.mk 0 0 0) 0 (MedianState.empty 5) rfl⟩

/-- C8: on every tachometer edge the stored pulse period is the wrapped
32-bit difference between the current and the previous counter reading:
it is the unique value below 2 ^ 32 that, added to the previous reading
modulo 2 ^ 32, gives the current reading — also across counter
rollover — and the current reading becomes the new previous one. -/
theorem pulse_period_wrapped_diff (prev : TachoState)
    (ticksNow halTick : Nat) (h1 : ticksNow < u32Mod)
    (h2 : prev.ticksLast < u32Mod) :
    (exti_callback prev ticksNow halTick).timeDiff
        = u32sub ticksNow prev.ticksLast
    ∧ (exti_callback prev ticksNow halTick).timeDiff < u32Mod
    ∧ (prev.ticksLast + (exti_callback prev ticksNow halTick).timeDiff)
        % u32Mod = ticksNow
    ∧ (exti_callback prev ticksNow halTick).ticksLast = ticksNow
    ∧ (exti_callback prev ticksNow halTick).cpuTicksNow = halTick := by
  refine ⟨rfl, ?_, ?_, rfl, rfl⟩ <;>
    (simp only [exti_callback]; unfold u32sub u32Mod at *; omega)

/-- C8 witness: a rollover instance: previous reading 2 ^ 32 - 10,
current reading 5, stored period the wrapped distance 15. -/
theorem pulse_period_wrapped_diff_witness :
    (exti_callback (TachoState.mk (2 ^ 32 - 10) 0 0) 5 777).timeDiff
        = u32sub 5 (2 ^ 32 - 10)
    ∧ (exti_callback (TachoState.mk (2 ^ 32 - 10) 0 0) 5 777).timeDiff
        < u32Mod
    ∧ ((2 ^ 32 - 10)
        + (exti_callback (TachoState.mk (2 ^ 32 - 10) 0 0) 5 777).timeDiff)
        % u32Mod = 5
    ∧ (exti_callback (TachoState.mk (2 ^ 32 - 10) 0 0) 5 777).ticksLast = 5
    ∧ (exti_callback (TachoState.mk (2 ^ 32 - 10) 0 0) 5 777).cpuTicksNow
        = 777 :=
  pulse_period_wrapped_diff (TachoState.mk (2 ^ 32 - 10) 0 0) 5 777
    (by decide) (by decide)

/-- C9: the duty-cycle compare value written by the controller equals
period length times output percent divided by 100, where the period
length is the configured Period register 399 plus 1, i.e. 400, and the
output percent is the raw PI output clamped to the interval from 0 to
100 before the conversion. -/
theorem pwm_compare_from_clamped_output (target filtered : Nat)
    (esum : ℚ) :
    (fan_update_pi_controller target filtered esum).1
      = ((timerPeriodReg : ℚ) + 1)
        * (max 0 (min (rawOutput target filtered esum) 100)) / 100
    ∧ ((timerPeriodReg : ℚ) + 1) = 400
    ∧ timerPeriodReg = 399 := by
  refine ⟨?_, by norm_num [timerPeriodReg], by norm_num [timerPeriodReg]⟩
  show compareValue (piStep target filtered esum).1 = _
  rw [compareValue, piStep_fst_clamp]

/-- C10: a stale or never-captured period makes `fan_get_filtered_rpm`
return 0 by its early returns, leaving the window contents and cursor
of the median filter unchanged; only a non-stale call with a nonzero
period feeds exactly the converted sample into the filter. -/
theorem filtered_rpm_frame_effect {N : Nat} (ts : TachoState)
    (halTick : Nat) (m : MedianState N) :
    fan_get_filtered_rpm ts halTick m =
      if u32sub halTick ts.cpuTicksNow > 1000 ∨ ts.timeDiff = 0 then (0, m)
      else ((m.insert (rpmOfPeriod ts.timeDiff)).median,
            m.insert (rpmOfPeriod ts.timeDiff)) :=
  get_filtered_rpm_eq ts halTick m

end Fan
